import Mathlib

/-!
Verification of the CAMT.053 bank-statement parser
(src/camt53_file_parser.py) against its specification.

The Python module is shallowly embedded: XML elements become an inductive
tree, lxml path lookups become list-of-tag lookups, Decimal becomes a
scaled-integer value,
datetime values become explicit structures, and every fallible operation
returns Except Err.  Definitions mirror the source functions name for name
where Lean allows it.
-/

deriving instance DecidableEq for Except

namespace Camt53

/-- An XML element, modelling the lxml element objects the parser walks:
a tag, an attribute list, optional text content and a child list. -/
inductive Xml where
  | mk (tag : String) (attrs : List (String × String)) (text : Option String)
       (children : List Xml)
deriving Repr

def Xml.tag : Xml → String
  | .mk t _ _ _ => t

def Xml.attrs : Xml → List (String × String)
  | .mk _ a _ _ => a

def Xml.text : Xml → Option String
  | .mk _ _ tx _ => tx

def Xml.children : Xml → List Xml
  | .mk _ _ _ c => c

/-- All elements reached from `x` by the slash path `path` (one list entry
per path segment), in document order; models lxml findall. -/
def findAll (x : Xml) : List String → List Xml
  | [] => [x]
  | t :: rest => (x.children.filter (fun c => c.tag = t)).flatMap
      (fun c => findAll c rest)

/-- First element reached by the path, if any; models lxml element.find. -/
def find (x : Xml) (path : List String) : Option Xml :=
  (findAll x path).head?

/-- Error outcomes of the Python module, one constructor per distinct
runtime failure the source can raise. -/
inductive Err where
  /-- ValueError "Missing mandatory element" raised by get_text: note it
  carries no path. -/
  | missingMandatoryElement
  /-- ValueError raised by get_element; its message includes the path. -/
  | missingMandatoryElementAt (path : List String)
  /-- KeyError from e.attrib[attr] in get_attribute. -/
  | keyErr (attr : String)
  /-- ValueError from CreditOrDebit(value) on an unrecognized literal. -/
  | invalidEnum (value : String)
  /-- decimal.InvalidOperation from Decimal(s) on a malformed literal. -/
  | invalidDecimal (s : String)
  /-- ValueError "Missing AccountID elements" in parse_statement. -/
  | missingAccountId
  /-- ValueError from date.fromisoformat after the truncation retry. -/
  | malformedDate (s : String)
  /-- ValueError from datetime.fromisoformat. -/
  | malformedTimestamp (s : String)
  /-- TypeError from str.join applied to a sequence containing None. -/
  | typeErrNoneInJoin
  /-- pydantic ValidationError: None passed for a non-optional field. -/
  | validationErr (field : String)
  /-- AttributeError: attribute access on None (e.g. None.amount). -/
  | attributeNone (attr : String)
deriving Repr, DecidableEq

/-- Python str.strip(): drop leading and trailing whitespace.  Defined
structurally over the character list so it computes by rfl. -/
def pyStrip (s : String) : String :=
  String.mk
    (((s.toList.dropWhile Char.isWhitespace).reverse.dropWhile
        Char.isWhitespace).reverse)

/-- get_text_or_none: text of `e` (or of the element at `path` under `e`),
stripped by default, or none when the element, the path hit or the text is
absent. -/
def get_text_or_none (e : Option Xml) (path : Option (List String))
    (strip : Bool) : Option String :=
  match e with
  | none => none
  | some e0 =>
    let e1 := match path with
      | none => some e0
      | some p => find e0 p
    match e1 with
    | none => none
    | some e2 =>
      match e2.text with
      | none => none
      | some t => some (if strip then pyStrip t else t)

/-- get_text: like get_text_or_none but a mandatory lookup; absence raises
ValueError "Missing mandatory element" (without the path). -/
def get_text (e : Option Xml) (path : Option (List String))
    (strip : Bool) : Except Err String :=
  match get_text_or_none e path strip with
  | none => .error .missingMandatoryElement
  | some t => .ok t

/-- get_element: mandatory subelement lookup; the error names the path. -/
def get_element (root : Xml) (path : List String) : Except Err Xml :=
  match find root path with
  | none => .error (.missingMandatoryElementAt path)
  | some e => .ok e

/-- get_attribute: e.attrib[attr]; a missing key raises KeyError. -/
def get_attribute (e : Xml) (attr : String) : Except Err String :=
  match e.attrs.lookup attr with
  | none => .error (.keyErr attr)
  | some v => .ok v

/-- The CreditOrDebit enum of the source. -/
inductive CreditOrDebit where
  | CRDT
  | DBIT
deriving Repr, DecidableEq

/-- CreditOrDebit(s): enum lookup by value; any other literal raises
ValueError, surfaced here as invalidEnum. -/
def CreditOrDebit.ofString : String → Except Err CreditOrDebit
  | "CRDT" => .ok .CRDT
  | "DBIT" => .ok .DBIT
  | s => .error (.invalidEnum s)

/-- Value of a digit list read in base 10. -/
def digitsToNat (cs : List Char) : Nat :=
  cs.foldl (fun acc c => acc * 10 + (c.toNat - 48)) 0

/-- A decimal.Decimal value: an integer coefficient with sign, and the
number of fractional digits; the value denoted is num / 10 ^ scale.  This
mirrors the coefficient-and-exponent representation of the Python class. -/
structure PyDec where
  num : ℤ
  scale : ℕ
deriving Repr, DecidableEq

/-- `amount * -1` on a Decimal: the coefficient flips sign, the scale is
unchanged. -/
def PyDec.neg (d : PyDec) : PyDec :=
  ⟨-d.num, d.scale⟩

/-- The rational value a Decimal denotes. -/
def PyDec.toRat (d : PyDec) : ℚ :=
  (d.num : ℚ) / (10 : ℚ) ^ d.scale

/-- Model of decimal.Decimal on a plain numeric string: optional sign,
integer digits, optional fractional digits, at least one digit in total.
(Exponent forms and special values, unused by CAMT amounts, are outside
the model and read as malformed.) -/
def pyDecimal (s : String) : Option PyDec :=
  let cs0 := s.toList
  let sign : ℤ := if cs0.head? = some '-' then -1 else 1
  let cs := if cs0.head? = some '-' ∨ cs0.head? = some '+' then cs0.tail else cs0
  let intPart := cs.takeWhile Char.isDigit
  let rest := cs.dropWhile Char.isDigit
  match rest with
  | [] =>
    if intPart = [] then none
    else some ⟨sign * (digitsToNat intPart : ℤ), 0⟩
  | '.' :: frac =>
    if frac.all Char.isDigit ∧ (intPart ≠ [] ∨ frac ≠ []) then
      some ⟨sign * ((digitsToNat intPart * 10 ^ frac.length
          + digitsToNat frac : ℕ) : ℤ), frac.length⟩
    else none
  | _ => none

/-- Decimal(s) as an Except, raising InvalidOperation on failure. -/
def pyDecimalE (s : String) : Except Err PyDec :=
  match pyDecimal s with
  | some q => .ok q
  | none => .error (.invalidDecimal s)

/-- A Python datetime.date value. -/
structure PyDate where
  year : ℕ
  month : ℕ
  day : ℕ
deriving Repr, DecidableEq

/-- A Python datetime.datetime value: the calendar date plus the raw
time-of-day remainder of the ISO string. -/
structure PyDateTime where
  date : PyDate
  timePart : String
deriving Repr, DecidableEq

def isLeap (y : ℕ) : Bool :=
  (y % 4 = 0 && y % 100 ≠ 0) || y % 400 = 0

def daysInMonth (y m : ℕ) : ℕ :=
  if m = 2 then (if isLeap y then 29 else 28)
  else if m = 4 ∨ m = 6 ∨ m = 9 ∨ m = 11 then 30
  else 31

/-- Two decimal digits to a number, when both characters are digits. -/
def twoDigits (a b : Char) : Option ℕ :=
  if a.isDigit ∧ b.isDigit then some ((a.toNat - 48) * 10 + (b.toNat - 48))
  else none

/-- Model of datetime.date.fromisoformat: strict YYYY-MM-DD with range
checks. -/
def date_fromisoformat (s : String) : Option PyDate :=
  match s.toList with
  | [y1, y2, y3, y4, '-', m1, m2, '-', d1, d2] => do
    let yh ← twoDigits y1 y2
    let yl ← twoDigits y3 y4
    let m ← twoDigits m1 m2
    let d ← twoDigits d1 d2
    let y := yh * 100 + yl
    if 1 ≤ y ∧ 1 ≤ m ∧ m ≤ 12 ∧ 1 ≤ d ∧ d ≤ daysInMonth y m then
      some ⟨y, m, d⟩
    else none
  | _ => none

/-- Model of datetime.datetime.fromisoformat: a strict date part, then an
optional separator and a nonempty time part kept raw. -/
def datetime_fromisoformat (s : String) : Option PyDateTime :=
  let cs := s.toList
  if cs.length = 10 then
    (date_fromisoformat s).map (fun d => ⟨d, ""⟩)
  else
    match date_fromisoformat (String.mk (cs.take 10)), cs.drop 10 with
    | some d, sep :: rest =>
      if (sep = 'T' ∨ sep = ' ') ∧ rest ≠ [] then
        some ⟨d, String.mk rest⟩
      else none
    | _, _ => none

/-- datetime.fromisoformat as an Except, raising on malformed input. -/
def pyDatetimeE (s : String) : Except Err PyDateTime :=
  match datetime_fromisoformat s with
  | some dt => .ok dt
  | none => .error (.malformedTimestamp s)

/-- parse_date_isoformat: strict date parse, then a warned retry on the
first 10 characters, then a hard error. -/
def parse_date_isoformat (s : String) : Except Err PyDate :=
  match date_fromisoformat s with
  | some d => .ok d
  | none =>
    match date_fromisoformat (String.mk (s.toList.take 10)) with
    | some d => .ok d
    | none => .error (.malformedDate s)

/-- Python string truthiness for optional strings: None and "" are falsy. -/
def pyTruthy (o : Option String) : Bool :=
  match o with
  | none => false
  | some s => s ≠ ""

/-- Python `a or b` on optional strings. -/
def pyOr (a b : Option String) : Option String :=
  if pyTruthy a then a else b

/-- Python `a or b or ""` used by the identifier __str__ methods. -/
def pyOrStr (a b : Option String) : String :=
  match pyOr (pyOr a b) (some "") with
  | some s => s
  | none => ""

/-- BankId: optional BIC and optional generic id. -/
structure BankId where
  bic : Option String := none
  id : Option String := none
deriving Repr, DecidableEq

/-- BankId.__str__: `self.bic or self.id or ""`. -/
def BankId.str (b : BankId) : String :=
  pyOrStr b.bic b.id

/-- BankId.from_xml: BIC falling back to BICFI, generic id from Othr/Id;
absent (None) unless one of the two is truthy. -/
def BankId.from_xml (root : Option Xml) : Option BankId :=
  let bic := pyOr (get_text_or_none root (some ["BIC"]) true)
      (get_text_or_none root (some ["BICFI"]) true)
  let id := get_text_or_none root (some ["Othr", "Id"]) true
  if pyTruthy bic || pyTruthy id then some ⟨bic, id⟩ else none

/-- AccountId: optional IBAN and optional generic id. -/
structure AccountId where
  iban : Option String := none
  id : Option String := none
deriving Repr, DecidableEq

/-- AccountId.__str__: `self.iban or self.id or ""`. -/
def AccountId.str (a : AccountId) : String :=
  pyOrStr a.iban a.id

/-- AccountId.from_xml: IBAN, generic id from Othr/Id; absent unless one
of the two is truthy. -/
def AccountId.from_xml (root : Option Xml) : Option AccountId :=
  let iban := get_text_or_none root (some ["IBAN"]) true
  let id := get_text_or_none root (some ["Othr", "Id"]) true
  if pyTruthy iban || pyTruthy id then some ⟨iban, id⟩ else none

/-- TransactionRef: eight optional reference fields. -/
structure TransactionRef where
  message_id : Option String := none
  end_to_end_id : Option String := none
  account_servicer_ref : Option String := none
  payment_invocation_id : Option String := none
  instruction_id : Option String := none
  mandate_id : Option String := none
  cheque_number : Option String := none
  clearing_system_ref : Option String := none
deriving Repr, DecidableEq

/-- TransactionRef.from_xml: an absent subtree yields the all-absent
reference; a present one extracts each field independently. -/
def TransactionRef.from_xml (root : Option Xml) : TransactionRef :=
  match root with
  | none => {}
  | some r =>
    { message_id := get_text_or_none (some r) (some ["MsgId"]) true
      account_servicer_ref := get_text_or_none (some r) (some ["AcctSvcrRef"]) true
      payment_invocation_id := get_text_or_none (some r) (some ["PmtInfId"]) true
      instruction_id := get_text_or_none (some r) (some ["InstrId"]) true
      end_to_end_id := get_text_or_none (some r) (some ["EndToEndId"]) true
      mandate_id := get_text_or_none (some r) (some ["MndtId"]) true
      cheque_number := get_text_or_none (some r) (some ["ChqNb"]) true
      clearing_system_ref := get_text_or_none (some r) (some ["ClrSysRef"]) true }

/-- Balance: signed decimal amount, currency code, date. -/
structure Balance where
  amount : PyDec
  currency : String
  date : PyDate
deriving Repr, DecidableEq

/-- Transaction, with the pydantic field types of the source: note
book_datetime is a plain (non-optional) string. -/
structure Transaction where
  ref : TransactionRef
  entry_ref : String
  amount : PyDec
  currency : String
  operation : String
  val_date : PyDate
  book_datetime : String
  bai_code : Option String := none
  remote_info : Option String := none
  additional_transaction_info : Option String := none
  related_account_id : Option AccountId := none
  related_account_bank_id : Option BankId := none
deriving Repr, DecidableEq

/-- Transaction.info property. -/
def Transaction.info (t : Transaction) : String :=
  let remote_info := pyStrip (t.remote_info.getD "")
  let additional_transaction_info := pyStrip (t.additional_transaction_info.getD "")
  if remote_info ≠ "" ∧ additional_transaction_info ≠ "" then
    if remote_info = additional_transaction_info then remote_info
    else remote_info ++ " / " ++ additional_transaction_info
  else if remote_info ≠ "" then remote_info
  else additional_transaction_info

/-- Python str() of an optional AccountId inside an f-string: None prints
as the literal "None". -/
def fmtOptAccountId (o : Option AccountId) : String :=
  match o with
  | none => "None"
  | some a => a.str

/-- Python str() of an optional BankId inside an f-string. -/
def fmtOptBankId (o : Option BankId) : String :=
  match o with
  | none => "None"
  | some b => b.str

/-- Transaction.related_account property: absent when both underlying
fields are absent, otherwise the f-string over the two optionals. -/
def Transaction.related_account (t : Transaction) : Option String :=
  if t.related_account_id = none ∧ t.related_account_bank_id = none then
    none
  else
    some (fmtOptAccountId t.related_account_id ++ "/"
      ++ fmtOptBankId t.related_account_bank_id)

/-- BankToCustomerStatement. -/
structure BankToCustomerStatement where
  statement_id : String
  created_time : PyDateTime
  from_time : PyDateTime
  to_time : PyDateTime
  account_id : AccountId
  opening_balance : Option Balance := none
  closing_balance : Option Balance := none
  transactions : List Transaction
deriving Repr, DecidableEq

/-- Collect a list of optional values, none when any entry is absent. -/
def seqOpt : List (Option String) → Option (List String)
  | [] => some []
  | none :: _ => none
  | some s :: rest => (seqOpt rest).map (fun ss => s :: ss)

/-- str.join over a generator of optional strings: Python raises TypeError
as soon as a None is produced; otherwise the values are ", "-joined. -/
def joinOptTexts (l : List (Option String)) : Except Err String :=
  match seqOpt l with
  | some ss => .ok (String.intercalate ", " ss)
  | none => .error .typeErrNoneInJoin

/-- parse_transaction over one Ntry element, line for line from the
source; the final match models the pydantic validation of the
non-optional book_datetime field at Transaction(...) construction. -/
def parse_transaction (ntry : Xml) : Except Err Transaction := do
  let entry_ref ← get_text (some ntry) (some ["NtryRef"]) true
  let ref := TransactionRef.from_xml (find ntry ["NtryDtls", "TxDtls", "Refs"])
  let amt ← get_element ntry ["Amt"]
  let currency ← get_attribute amt "Ccy"
  let amountStr ← get_text (some amt) none true
  let amount ← pyDecimalE amountStr
  let indStr ← get_text (some ntry) (some ["CdtDbtInd"]) true
  let tmp ← CreditOrDebit.ofString indStr
  let operation := match tmp with
    | .DBIT => "debit"
    | .CRDT => "credit"
  let valStr ← get_text (some ntry) (some ["ValDt", "Dt"]) true
  let val_date ← parse_date_isoformat valStr
  let book_datetime? := get_text_or_none (some ntry) (some ["BookgDt", "DtTm"]) true
  let bai_code :=
    if get_text_or_none (some ntry) (some ["BkTxCd", "Prtry", "Issr"]) true = some "BAI"
    then get_text_or_none (some ntry) (some ["BkTxCd", "Prtry", "Cd"]) true
    else none
  let remote_info_elements := findAll ntry ["NtryDtls", "TxDtls", "RmtInf", "Ustrd"]
  let remote_info ← joinOptTexts
    (remote_info_elements.map (fun element => get_text_or_none (some element) none true))
  let additional_transaction_info :=
    get_text_or_none (some ntry) (some ["NtryDtls", "TxDtls", "AddtlTxInf"]) true
  let related_account_id :=
    match find ntry ["NtryDtls", "TxDtls", "RltdPties", "DbtrAcct", "Id"] with
    | some dbtr_acct_id => AccountId.from_xml (some dbtr_acct_id)
    | none =>
      match find ntry ["NtryDtls", "TxDtls", "RltdPties", "CdtrAcct", "Id"] with
      | some cdtr_acct_id => AccountId.from_xml (some cdtr_acct_id)
      | none => none
  let related_account_bank_id :=
    match find ntry ["NtryDtls", "TxDtls", "RltdAgts", "DbtrAgt", "FinInstnId"] with
    | some dbtr_agt_id => BankId.from_xml (some dbtr_agt_id)
    | none =>
      match find ntry ["NtryDtls", "TxDtls", "RltdAgts", "CdtrAgt", "FinInstnId"] with
      | some cdtr_agt_id => BankId.from_xml (some cdtr_agt_id)
      | none => none
  match book_datetime? with
  | none => .error (.validationErr "book_datetime")
  | some book_datetime =>
    .ok { entry_ref := entry_ref
          ref := ref
          amount := amount
          currency := currency
          operation := operation
          val_date := val_date
          book_datetime := book_datetime
          bai_code := bai_code
          remote_info := some remote_info
          additional_transaction_info := additional_transaction_info
          related_account_id := related_account_id
          related_account_bank_id := related_account_bank_id }

/-- The Python list comprehension over a fallible element parser: results
in order, aborting at the first failure. -/
def mapExcept (f : α → Except Err β) : List α → Except Err (List β)
  | [] => .ok []
  | x :: xs => do
    let y ← f x
    let ys ← mapExcept f xs
    .ok (y :: ys)

/-- parse_transactions: map parse_transaction over the Ntry children in
document order; the first failing entry aborts. -/
def parse_transactions (stmt : Xml) : Except Err (List Transaction) :=
  mapExcept parse_transaction (findAll stmt ["Ntry"])

/-- The body of the balance loop of parse_statement for one Bal block:
date, amount element, currency attribute, decimal amount, credit/debit
indicator (DBIT negates), then the type code. -/
def processBal (bal : Xml) : Except Err (Balance × String) := do
  let balDateStr ← get_text (some bal) (some ["Dt", "Dt"]) true
  let bal_date ← parse_date_isoformat balDateStr
  let amt ← get_element bal ["Amt"]
  let bal_currency ← get_attribute amt "Ccy"
  let amountStr ← get_text (some amt) none true
  let amount0 ← pyDecimalE amountStr
  let indStr ← get_text (some bal) (some ["CdtDbtInd"]) true
  let tmp ← CreditOrDebit.ofString indStr
  let amount := if tmp = .DBIT then amount0.neg else amount0
  let tmp2 ← get_text (some bal) (some ["Tp", "CdOrPrtry", "Cd"]) true
  .ok (⟨amount, bal_currency, bal_date⟩, tmp2)

/-- The balance loop: fold the Bal blocks, classifying OPBD as opening and
CLBD as closing and silently ignoring other codes. -/
def foldBals : List Xml → Option Balance × Option Balance →
    Except Err (Option Balance × Option Balance)
  | [], acc => .ok acc
  | b :: rest, (op, cl) => do
    let (balance, tmp2) ← processBal b
    let acc :=
      if tmp2 = "OPBD" then (some balance, cl)
      else if tmp2 = "CLBD" then (op, some balance)
      else (op, cl)
    foldBals rest acc

/-- parse_statement over one Stmt element, following the source order:
id, three timestamps, account id (checked for absence before the balance
loop), balances, transactions. -/
def parse_statement (stmt : Xml) : Except Err BankToCustomerStatement := do
  let statement_id ← get_text (find stmt ["Id"]) none true
  let createdStr ← get_text (some stmt) (some ["CreDtTm"]) true
  let created_time ← pyDatetimeE createdStr
  let fromStr ← get_text (some stmt) (some ["FrToDt", "FrDtTm"]) true
  let from_time ← pyDatetimeE fromStr
  let toStr ← get_text (some stmt) (some ["FrToDt", "ToDtTm"]) true
  let to_time ← pyDatetimeE toStr
  let acctEl ← get_element stmt ["Acct", "Id"]
  let account_id? := AccountId.from_xml (some acctEl)
  match account_id? with
  | none => .error .missingAccountId
  | some account_id => do
    let (opening_balance, closing_balance) ←
      foldBals (findAll stmt ["Bal"]) (none, none)
    let transactions ← parse_transactions stmt
    .ok { statement_id := statement_id
          created_time := created_time
          from_time := from_time
          to_time := to_time
          account_id := account_id
          opening_balance := opening_balance
          closing_balance := closing_balance
          transactions := transactions }

/-- parse_xml: strip the namespace (a byte-level concern outside the tree
model), then map parse_statement over every BkToCstmrStmt/Stmt node. -/
def parse_xml (root : Xml) : Except Err (List BankToCustomerStatement) :=
  mapExcept parse_statement (findAll root ["BkToCstmrStmt", "Stmt"])

/-- A Python value as it appears in a pydantic model_dump dictionary. -/
inductive PyVal where
  | str (s : String)
  | noneV
  | dec (q : PyDec)
  | date (d : PyDate)
  | dict (entries : List (String × PyVal))

/-- An optional string as a dumped Python value. -/
def optStrVal (o : Option String) : PyVal :=
  match o with
  | none => .noneV
  | some s => .str s

/-- model_dump of a TransactionRef. -/
def TransactionRef.dump (r : TransactionRef) : List (String × PyVal) :=
  [("message_id", optStrVal r.message_id),
   ("end_to_end_id", optStrVal r.end_to_end_id),
   ("account_servicer_ref", optStrVal r.account_servicer_ref),
   ("payment_invocation_id", optStrVal r.payment_invocation_id),
   ("instruction_id", optStrVal r.instruction_id),
   ("mandate_id", optStrVal r.mandate_id),
   ("cheque_number", optStrVal r.cheque_number),
   ("clearing_system_ref", optStrVal r.clearing_system_ref)]

/-- model_dump of an optional AccountId. -/
def dumpOptAccountId (o : Option AccountId) : PyVal :=
  match o with
  | none => .noneV
  | some a => .dict [("iban", optStrVal a.iban), ("id", optStrVal a.id)]

/-- model_dump of an optional BankId. -/
def dumpOptBankId (o : Option BankId) : PyVal :=
  match o with
  | none => .noneV
  | some b => .dict [("bic", optStrVal b.bic), ("id", optStrVal b.id)]

/-- model_dump of a Transaction, in field order. -/
def Transaction.model_dump (t : Transaction) : List (String × PyVal) :=
  [("ref", .dict t.ref.dump),
   ("entry_ref", .str t.entry_ref),
   ("amount", .dec t.amount),
   ("currency", .str t.currency),
   ("operation", .str t.operation),
   ("val_date", .date t.val_date),
   ("book_datetime", .str t.book_datetime),
   ("bai_code", optStrVal t.bai_code),
   ("remote_info", optStrVal t.remote_info),
   ("additional_transaction_info", optStrVal t.additional_transaction_info),
   ("related_account_id", dumpOptAccountId t.related_account_id),
   ("related_account_bank_id", dumpOptBankId t.related_account_bank_id)]

/-- flatten_dict: flatten nested dictionaries, prefixing nested keys with
the parent key and an underscore. -/
def flatten_dict : List (String × PyVal) → String → List (String × PyVal)
  | [], _ => []
  | (k, .dict sub) :: rest, pre =>
    flatten_dict sub (pre ++ k ++ "_") ++ flatten_dict rest pre
  | (k, v) :: rest, pre => (pre ++ k, v) :: flatten_dict rest pre

/-- The dataframe produced by as_dataframe: per-transaction flattened
rows plus the four statement-level columns. -/
structure DataFrame where
  rows : List (List (String × PyVal))
  statement_id : String
  statement_account_id : String
  statement_opening_balance : String
  statement_closing_balance : String

/-- str(Decimal): a total rendering of the coefficient and scale (no
claim inspects the exact text, only that the conversion is total). -/
def ratStr (q : PyDec) : String :=
  toString q.num ++ "E-" ++ toString q.scale

/-- as_dataframe: build the flattened rows, then unconditionally take
str(opening_balance.amount) and str(closing_balance.amount); an absent
balance raises AttributeError (None has no attribute amount), the opening
one first, matching the assignment order of the source. -/
def as_dataframe (s : BankToCustomerStatement) : Except Err DataFrame := do
  let rows := s.transactions.map
    (fun tx => flatten_dict tx.model_dump "transaction_")
  match s.opening_balance with
  | none => .error (.attributeNone "amount")
  | some ob =>
    match s.closing_balance with
    | none => .error (.attributeNone "amount")
    | some cb =>
      .ok { rows := rows
            statement_id := s.statement_id
            statement_account_id := s.account_id.str
            statement_opening_balance := ratStr ob.amount
            statement_closing_balance := ratStr cb.amount }

/-! ### Concrete fixtures used by the witness theorems -/

/-- Build an element with children only. -/
def el (tag : String) (children : List Xml) : Xml :=
  .mk tag [] none children

/-- Build a leaf element with text. -/
def txt (tag s : String) : Xml :=
  .mk tag [] (some s) []

/-- A debit closing-balance block (DBIT, 50.00 EUR, CLBD). -/
def balDbitC1 : Xml :=
  el "Bal" [el "Tp" [el "CdOrPrtry" [txt "Cd" "CLBD"]],
    .mk "Amt" [("Ccy", "EUR")] (some "50.00") [],
    txt "CdtDbtInd" "DBIT",
    el "Dt" [txt "Dt" "2024-01-31"]]

/-- A credit opening-balance block (CRDT, 100.00 EUR, OPBD). -/
def balCrdtC1 : Xml :=
  el "Bal" [el "Tp" [el "CdOrPrtry" [txt "Cd" "OPBD"]],
    .mk "Amt" [("Ccy", "EUR")] (some "100.00") [],
    txt "CdtDbtInd" "CRDT",
    el "Dt" [txt "Dt" "2024-01-01"]]

/-- A balance block whose credit/debit indicator is the invalid literal
XXXX. -/
def balBadC1 : Xml :=
  el "Bal" [el "Tp" [el "CdOrPrtry" [txt "Cd" "OPBD"]],
    .mk "Amt" [("Ccy", "EUR")] (some "100.00") [],
    txt "CdtDbtInd" "XXXX",
    el "Dt" [txt "Dt" "2024-01-01"]]

/-- A statement whose only balance block carries the invalid indicator. -/
def stmtBadC1 : Xml :=
  el "Stmt" [txt "Id" "ST1",
    txt "CreDtTm" "2024-02-01T00:00:00",
    el "FrToDt" [txt "FrDtTm" "2024-01-01T00:00:00",
      txt "ToDtTm" "2024-01-31T23:59:59"],
    el "Acct" [el "Id" [txt "IBAN" "DE99"]],
    balBadC1]

/-- An arbitrary statement value, used to instantiate a negated goal. -/
def stDummyC1 : BankToCustomerStatement :=
  { statement_id := "X", created_time := ⟨⟨2024, 1, 1⟩, ""⟩,
    from_time := ⟨⟨2024, 1, 1⟩, ""⟩, to_time := ⟨⟨2024, 1, 1⟩, ""⟩,
    account_id := ⟨some "DE99", none⟩, transactions := [] }

/-- A credit entry (CRDT, 150.00 EUR) with every mandatory element. -/
def ntryC2 : Xml :=
  el "Ntry" [txt "NtryRef" "R1",
    .mk "Amt" [("Ccy", "EUR")] (some "150.00") [],
    txt "CdtDbtInd" "CRDT",
    el "ValDt" [txt "Dt" "2024-01-15"],
    el "BookgDt" [txt "DtTm" "2024-01-15T10:00:00"]]

/-- The transaction ntryC2 parses to. -/
def txC2 : Transaction :=
  { ref := {}, entry_ref := "R1", amount := ⟨15000, 2⟩, currency := "EUR",
    operation := "credit", val_date := ⟨2024, 1, 15⟩,
    book_datetime := "2024-01-15T10:00:00", remote_info := some "" }

/-- An entry with a debtor account id and a creditor agent. -/
def ntryC3 : Xml :=
  el "Ntry" [txt "NtryRef" "R2",
    .mk "Amt" [("Ccy", "EUR")] (some "10.00") [],
    txt "CdtDbtInd" "DBIT",
    el "ValDt" [txt "Dt" "2024-01-16"],
    el "BookgDt" [txt "DtTm" "2024-01-16T10:00:00"],
    el "NtryDtls" [el "TxDtls" [
      el "RltdPties" [el "DbtrAcct" [el "Id" [txt "IBAN" "DE11"]]],
      el "RltdAgts" [el "CdtrAgt" [el "FinInstnId" [txt "BIC" "COBADEFF"]]]]]]

/-- The transaction ntryC3 parses to. -/
def txC3 : Transaction :=
  { ref := {}, entry_ref := "R2", amount := ⟨1000, 2⟩, currency := "EUR",
    operation := "debit", val_date := ⟨2024, 1, 16⟩,
    book_datetime := "2024-01-16T10:00:00", remote_info := some "",
    related_account_id := some ⟨some "DE11", none⟩,
    related_account_bank_id := some ⟨some "COBADEFF", none⟩ }

/-- An entry whose value date element is missing. -/
def ntryC4 : Xml :=
  el "Ntry" [txt "NtryRef" "R4",
    .mk "Amt" [("Ccy", "EUR")] (some "10.00") [],
    txt "CdtDbtInd" "CRDT",
    el "BookgDt" [txt "DtTm" "2024-01-16T10:00:00"]]

/-- An otherwise complete statement containing the entry with the missing
value date. -/
def stmtC4 : Xml :=
  el "Stmt" [txt "Id" "ST4",
    txt "CreDtTm" "2024-02-01T00:00:00",
    el "FrToDt" [txt "FrDtTm" "2024-01-01T00:00:00",
      txt "ToDtTm" "2024-01-31T23:59:59"],
    el "Acct" [el "Id" [txt "IBAN" "DE99"]],
    ntryC4]

/-- An arbitrary statement value for the C4 negated goal. -/
def stDummyC4 : BankToCustomerStatement :=
  { statement_id := "Y", created_time := ⟨⟨2024, 1, 1⟩, ""⟩,
    from_time := ⟨⟨2024, 1, 1⟩, ""⟩, to_time := ⟨⟨2024, 1, 1⟩, ""⟩,
    account_id := ⟨some "DE99", none⟩, transactions := [] }

/-- An entry with two remittance-info nodes, both with text. -/
def ntryC5ok : Xml :=
  el "Ntry" [txt "NtryRef" "R5",
    .mk "Amt" [("Ccy", "EUR")] (some "10.00") [],
    txt "CdtDbtInd" "CRDT",
    el "ValDt" [txt "Dt" "2024-01-17"],
    el "BookgDt" [txt "DtTm" "2024-01-17T10:00:00"],
    el "NtryDtls" [el "TxDtls" [el "RmtInf" [txt "Ustrd" "Invoice 1",
      txt "Ustrd" "Invoice 2"]]]]

/-- The transaction ntryC5ok parses to. -/
def txC5 : Transaction :=
  { ref := {}, entry_ref := "R5", amount := ⟨1000, 2⟩, currency := "EUR",
    operation := "credit", val_date := ⟨2024, 1, 17⟩,
    book_datetime := "2024-01-17T10:00:00",
    remote_info := some "Invoice 1, Invoice 2" }

/-- An entry with a remittance-info node whose text is absent. -/
def ntryC5bad : Xml :=
  el "Ntry" [txt "NtryRef" "R5b",
    .mk "Amt" [("Ccy", "EUR")] (some "10.00") [],
    txt "CdtDbtInd" "CRDT",
    el "ValDt" [txt "Dt" "2024-01-17"],
    el "BookgDt" [txt "DtTm" "2024-01-17T10:00:00"],
    el "NtryDtls" [el "TxDtls" [el "RmtInf" [.mk "Ustrd" [] none []]]]]

/-- An entry with every mandatory element except the booking timestamp. -/
def ntryC6 : Xml :=
  el "Ntry" [txt "NtryRef" "R6",
    .mk "Amt" [("Ccy", "EUR")] (some "10.00") [],
    txt "CdtDbtInd" "CRDT",
    el "ValDt" [txt "Dt" "2024-01-18"]]

/-- A subtree carrying only a BIC. -/
def rootBicC7 : Xml :=
  el "FinInstnId" [txt "BIC" "COBADEFF"]

/-- A subtree with neither a bank code nor a generic id. -/
def rootEmptyBankC7 : Xml :=
  el "FinInstnId" [txt "Nm" "Some Bank"]

/-- A subtree carrying only an IBAN. -/
def rootIbanC7 : Xml :=
  el "Id" [txt "IBAN" "DE1234567890"]

/-- A subtree with neither an IBAN nor a generic id. -/
def rootEmptyAcctC7 : Xml :=
  el "Id" [txt "Nm" "Some Account"]

/-- A reference subtree carrying a message id only. -/
def refsC8 : Xml :=
  el "Refs" [txt "MsgId" "MSG-1"]

/-- A balance for the C9 fixtures. -/
def balC9 : Balance :=
  { amount := ⟨10000, 2⟩, currency := "EUR", date := ⟨2024, 1, 1⟩ }

/-- A statement value with only the opening balance present. -/
def stOnlyOpeningC9 : BankToCustomerStatement :=
  { statement_id := "S9", created_time := ⟨⟨2024, 2, 1⟩, ""⟩,
    from_time := ⟨⟨2024, 1, 1⟩, ""⟩, to_time := ⟨⟨2024, 1, 31⟩, ""⟩,
    account_id := ⟨some "DE99", none⟩, opening_balance := some balC9,
    transactions := [] }

/-- A statement value with both balances present. -/
def stBothC9 : BankToCustomerStatement :=
  { stOnlyOpeningC9 with closing_balance := some balC9 }

/-- A transaction with a related account id but no related bank id. -/
def txC10 : Transaction :=
  { ref := {}, entry_ref := "E", amount := ⟨100, 0⟩, currency := "EUR",
    operation := "credit", val_date := ⟨2024, 1, 1⟩, book_datetime := "",
    related_account_id := some ⟨some "IBAN123", none⟩ }

/-- A transaction with a related bank id but no related account id. -/
def txC10b : Transaction :=
  { ref := {}, entry_ref := "E", amount := ⟨100, 0⟩, currency := "EUR",
    operation := "credit", val_date := ⟨2024, 1, 1⟩, book_datetime := "",
    related_account_bank_id := some ⟨some "BIC9", none⟩ }

/-! ### Lemmas about the Except monad and the mappers -/

theorem bind_eq_ok_iff {α β : Type} {e : Except Err α} {f : α → Except Err β}
    {b : β} : (e >>= f) = .ok b ↔ ∃ a, e = .ok a ∧ f a = .ok b := by
  cases e <;> simp [Bind.bind, Except.bind]

theorem bind_ok {α β : Type} (a : α) (f : α → Except Err β) :
    (Except.ok a >>= f : Except Err β) = f a := rfl

theorem bind_error {α β : Type} (e : Err) (f : α → Except Err β) :
    ((Except.error e : Except Err α) >>= f) = .error e := rfl

theorem mapExcept_ok_mem {α β : Type} {f : α → Except Err β} {l : List α}
    {ys : List β} (h : mapExcept f l = .ok ys) {x : α} (hx : x ∈ l) :
    ∃ y, f x = .ok y := by
  induction l generalizing ys with
  | nil => cases hx
  | cons a as ih =>
    rw [mapExcept] at h
    rcases bind_eq_ok_iff.mp h with ⟨y, hy, h2⟩
    rcases bind_eq_ok_iff.mp h2 with ⟨ys2, hys2, _⟩
    cases hx with
    | head => exact ⟨y, hy⟩
    | tail _ hx => exact ih hys2 hx

theorem foldBals_ok_mem {l : List Xml} {acc : Option Balance × Option Balance}
    {r : Option Balance × Option Balance} (h : foldBals l acc = .ok r)
    {b : Xml} (hb : b ∈ l) : ∃ p, processBal b = .ok p := by
  induction l generalizing acc with
  | nil => cases hb
  | cons a as ih =>
    obtain ⟨op, cl⟩ := acc
    rw [foldBals] at h
    rcases bind_eq_ok_iff.mp h with ⟨p, hp, hrest⟩
    cases hb with
    | head => exact ⟨p, hp⟩
    | tail _ hb =>
      obtain ⟨bal0, t2⟩ := p
      exact ih hrest hb

/-- Inversion of parse_transaction: a successful parse determines every
intermediate extraction and the shape of the resulting Transaction. -/
theorem parse_transaction_ok_inv {ntry : Xml} {t : Transaction}
    (h : parse_transaction ntry = .ok t) :
    ∃ entry_ref amtEl currency amountStr amount indStr tmp valStr val_date
      remote book_datetime,
      get_text (some ntry) (some ["NtryRef"]) true = .ok entry_ref ∧
      get_element ntry ["Amt"] = .ok amtEl ∧
      get_attribute amtEl "Ccy" = .ok currency ∧
      get_text (some amtEl) none true = .ok amountStr ∧
      pyDecimalE amountStr = .ok amount ∧
      get_text (some ntry) (some ["CdtDbtInd"]) true = .ok indStr ∧
      CreditOrDebit.ofString indStr = .ok tmp ∧
      get_text (some ntry) (some ["ValDt", "Dt"]) true = .ok valStr ∧
      parse_date_isoformat valStr = .ok val_date ∧
      joinOptTexts ((findAll ntry ["NtryDtls", "TxDtls", "RmtInf", "Ustrd"]).map
        (fun element => get_text_or_none (some element) none true)) = .ok remote ∧
      get_text_or_none (some ntry) (some ["BookgDt", "DtTm"]) true = some book_datetime ∧
      t = { entry_ref := entry_ref
            ref := TransactionRef.from_xml (find ntry ["NtryDtls", "TxDtls", "Refs"])
            amount := amount
            currency := currency
            operation := (match tmp with | .DBIT => "debit" | .CRDT => "credit")
            val_date := val_date
            book_datetime := book_datetime
            bai_code :=
              (if get_text_or_none (some ntry) (some ["BkTxCd", "Prtry", "Issr"]) true = some "BAI"
               then get_text_or_none (some ntry) (some ["BkTxCd", "Prtry", "Cd"]) true
               else none)
            remote_info := some remote
            additional_transaction_info :=
              get_text_or_none (some ntry) (some ["NtryDtls", "TxDtls", "AddtlTxInf"]) true
            related_account_id :=
              (match find ntry ["NtryDtls", "TxDtls", "RltdPties", "DbtrAcct", "Id"] with
               | some dbtr_acct_id => AccountId.from_xml (some dbtr_acct_id)
               | none =>
                 match find ntry ["NtryDtls", "TxDtls", "RltdPties", "CdtrAcct", "Id"] with
                 | some cdtr_acct_id => AccountId.from_xml (some cdtr_acct_id)
                 | none => none)
            related_account_bank_id :=
              (match find ntry ["NtryDtls", "TxDtls", "RltdAgts", "DbtrAgt", "FinInstnId"] with
               | some dbtr_agt_id => BankId.from_xml (some dbtr_agt_id)
               | none =>
                 match find ntry ["NtryDtls", "TxDtls", "RltdAgts", "CdtrAgt", "FinInstnId"] with
                 | some cdtr_agt_id => BankId.from_xml (some cdtr_agt_id)
                 | none => none) } := by
  rw [parse_transaction] at h
  rcases bind_eq_ok_iff.mp h with ⟨entry_ref, h1, h⟩
  rcases bind_eq_ok_iff.mp h with ⟨amtEl, h2, h⟩
  rcases bind_eq_ok_iff.mp h with ⟨currency, h3, h⟩
  rcases bind_eq_ok_iff.mp h with ⟨amountStr, h4, h⟩
  rcases bind_eq_ok_iff.mp h with ⟨amount, h5, h⟩
  rcases bind_eq_ok_iff.mp h with ⟨indStr, h6, h⟩
  rcases bind_eq_ok_iff.mp h with ⟨tmp, h7, h⟩
  rcases bind_eq_ok_iff.mp h with ⟨valStr, h8, h⟩
  rcases bind_eq_ok_iff.mp h with ⟨val_date, h9, h⟩
  rcases bind_eq_ok_iff.mp h with ⟨remote, h10, h⟩
  cases hbd : get_text_or_none (some ntry) (some ["BookgDt", "DtTm"]) true with
  | none => rw [hbd] at h; cases h
  | some book_datetime =>
    rw [hbd] at h
    cases h
    exact ⟨entry_ref, amtEl, currency, amountStr, amount, indStr, tmp, valStr,
      val_date, remote, book_datetime, h1, h2, h3, h4, h5, h6, h7, h8, h9, h10,
      rfl, rfl⟩

/-- Inversion of the balance-block extractor: a successful run determines
every intermediate extraction and the produced Balance. -/
theorem processBal_ok_inv {bal : Xml} {b : Balance} {code : String}
    (h : processBal bal = .ok (b, code)) :
    ∃ balDateStr bal_date amtEl bal_currency amountStr amount0 indStr tmp,
      get_text (some bal) (some ["Dt", "Dt"]) true = .ok balDateStr ∧
      parse_date_isoformat balDateStr = .ok bal_date ∧
      get_element bal ["Amt"] = .ok amtEl ∧
      get_attribute amtEl "Ccy" = .ok bal_currency ∧
      get_text (some amtEl) none true = .ok amountStr ∧
      pyDecimalE amountStr = .ok amount0 ∧
      get_text (some bal) (some ["CdtDbtInd"]) true = .ok indStr ∧
      CreditOrDebit.ofString indStr = .ok tmp ∧
      get_text (some bal) (some ["Tp", "CdOrPrtry", "Cd"]) true = .ok code ∧
      b = ⟨if tmp = .DBIT then amount0.neg else amount0, bal_currency, bal_date⟩ := by
  rw [processBal] at h
  rcases bind_eq_ok_iff.mp h with ⟨balDateStr, h1, h⟩
  rcases bind_eq_ok_iff.mp h with ⟨bal_date, h2, h⟩
  rcases bind_eq_ok_iff.mp h with ⟨amtEl, h3, h⟩
  rcases bind_eq_ok_iff.mp h with ⟨bal_currency, h4, h⟩
  rcases bind_eq_ok_iff.mp h with ⟨amountStr, h5, h⟩
  rcases bind_eq_ok_iff.mp h with ⟨amount0, h6, h⟩
  rcases bind_eq_ok_iff.mp h with ⟨indStr, h7, h⟩
  rcases bind_eq_ok_iff.mp h with ⟨tmp, h8, h⟩
  rcases bind_eq_ok_iff.mp h with ⟨code2, h9, h⟩
  cases h
  exact ⟨balDateStr, bal_date, amtEl, bal_currency, amountStr, amount0, indStr,
    tmp, h1, h2, h3, h4, h5, h6, h7, h8, h9, rfl⟩

/-- Inversion of parse_statement: a successful parse determines the
top-level extractions, the balance fold and the transaction list. -/
theorem parse_statement_ok_inv {stmt : Xml} {st : BankToCustomerStatement}
    (h : parse_statement stmt = .ok st) :
    ∃ statement_id createdStr created_time fromStr from_time toStr to_time
      acctEl account_id opening_balance closing_balance transactions,
      get_text (find stmt ["Id"]) none true = .ok statement_id ∧
      get_text (some stmt) (some ["CreDtTm"]) true = .ok createdStr ∧
      pyDatetimeE createdStr = .ok created_time ∧
      get_text (some stmt) (some ["FrToDt", "FrDtTm"]) true = .ok fromStr ∧
      pyDatetimeE fromStr = .ok from_time ∧
      get_text (some stmt) (some ["FrToDt", "ToDtTm"]) true = .ok toStr ∧
      pyDatetimeE toStr = .ok to_time ∧
      get_element stmt ["Acct", "Id"] = .ok acctEl ∧
      AccountId.from_xml (some acctEl) = some account_id ∧
      foldBals (findAll stmt ["Bal"]) (none, none) =
        .ok (opening_balance, closing_balance) ∧
      parse_transactions stmt = .ok transactions ∧
      st = { statement_id := statement_id
             created_time := created_time
             from_time := from_time
             to_time := to_time
             account_id := account_id
             opening_balance := opening_balance
             closing_balance := closing_balance
             transactions := transactions } := by
  rw [parse_statement] at h
  rcases bind_eq_ok_iff.mp h with ⟨statement_id, h1, h⟩
  rcases bind_eq_ok_iff.mp h with ⟨createdStr, h2, h⟩
  rcases bind_eq_ok_iff.mp h with ⟨created_time, h3, h⟩
  rcases bind_eq_ok_iff.mp h with ⟨fromStr, h4, h⟩
  rcases bind_eq_ok_iff.mp h with ⟨from_time, h5, h⟩
  rcases bind_eq_ok_iff.mp h with ⟨toStr, h6, h⟩
  rcases bind_eq_ok_iff.mp h with ⟨to_time, h7, h⟩
  rcases bind_eq_ok_iff.mp h with ⟨acctEl, h8, h⟩
  cases hacct : AccountId.from_xml (some acctEl) with
  | none => rw [hacct] at h; cases h
  | some account_id =>
    rw [hacct] at h
    rcases bind_eq_ok_iff.mp h with ⟨bals, h10, h⟩
    obtain ⟨opening_balance, closing_balance⟩ := bals
    rcases bind_eq_ok_iff.mp h with ⟨transactions, h11, h⟩
    cases h
    exact ⟨statement_id, createdStr, created_time, fromStr, from_time, toStr,
      to_time, acctEl, account_id, opening_balance, closing_balance,
      transactions, h1, h2, h3, h4, h5, h6, h7, h8, hacct, h10, h11, rfl⟩

theorem ofString_ok_cases {s : String} {c : CreditOrDebit}
    (h : CreditOrDebit.ofString s = .ok c) :
    (c = .CRDT ∧ s = "CRDT") ∨ (c = .DBIT ∧ s = "DBIT") := by
  unfold CreditOrDebit.ofString at h
  split at h
  · cases h; exact Or.inl ⟨rfl, rfl⟩
  · cases h; exact Or.inr ⟨rfl, rfl⟩
  · cases h

theorem ofString_invalid {s : String} (h1 : s ≠ "CRDT") (h2 : s ≠ "DBIT") :
    CreditOrDebit.ofString s = .error (.invalidEnum s) := by
  unfold CreditOrDebit.ofString
  split
  · simp_all
  · simp_all
  · rfl

theorem seqOpt_eq_some {l : List (Option String)} {ss : List String}
    (h : seqOpt l = some ss) : l = ss.map some := by
  induction l generalizing ss with
  | nil => cases h; rfl
  | cons a rest ih =>
    cases a with
    | none => cases h
    | some v =>
      rw [seqOpt] at h
      cases hr : seqOpt rest with
      | none => rw [hr] at h; cases h
      | some ss2 =>
        rw [hr] at h
        cases h
        simp [ih hr]

theorem seqOpt_of_mem_none {l : List (Option String)}
    (h : none ∈ l) : seqOpt l = none := by
  induction l with
  | nil => cases h
  | cons a rest ih =>
    cases a with
    | none => rfl
    | some v =>
      cases h with
      | tail _ h => rw [seqOpt, ih h]; rfl

theorem seqOpt_map_some (ts : List String) : seqOpt (ts.map some) = some ts := by
  induction ts with
  | nil => rfl
  | cons a l ih => rw [List.map_cons, seqOpt, ih]; rfl

/-! ### Claim C7 -/

/-- C7: identifier round-trip.  From a subtree with only a BIC (for
BankId) or only an IBAN (for AccountId) present, from_xml yields an
identifier whose string form equals that value; from a subtree with
neither the primary code nor the generic id present, from_xml yields
absent, never an empty identifier object. -/
theorem C7_identifier_round_trip :
    (∀ root v, get_text_or_none (some root) (some ["BIC"]) true = some v → v ≠ "" →
       get_text_or_none (some root) (some ["BICFI"]) true = none →
       get_text_or_none (some root) (some ["Othr", "Id"]) true = none →
       ∃ b, BankId.from_xml (some root) = some b ∧ b.str = v) ∧
    (∀ root, get_text_or_none (some root) (some ["BIC"]) true = none →
       get_text_or_none (some root) (some ["BICFI"]) true = none →
       get_text_or_none (some root) (some ["Othr", "Id"]) true = none →
       BankId.from_xml (some root) = none) ∧
    (∀ root v, get_text_or_none (some root) (some ["IBAN"]) true = some v → v ≠ "" →
       get_text_or_none (some root) (some ["Othr", "Id"]) true = none →
       ∃ a, AccountId.from_xml (some root) = some a ∧ a.str = v) ∧
    (∀ root, get_text_or_none (some root) (some ["IBAN"]) true = none →
       get_text_or_none (some root) (some ["Othr", "Id"]) true = none →
       AccountId.from_xml (some root) = none) := by
  refine ⟨?_, ?_, ?_, ?_⟩
  · intro root v hv hne hbicfi hid
    refine ⟨⟨some v, none⟩, ?_, ?_⟩
    · simp [BankId.from_xml, pyOr, pyTruthy, hv, hbicfi, hid, hne]
    · simp [BankId.str, pyOrStr, pyOr, pyTruthy, hne]
  · intro root hbic hbicfi hid
    simp [BankId.from_xml, pyOr, pyTruthy, hbic, hbicfi, hid]
  · intro root v hv hne hid
    refine ⟨⟨some v, none⟩, ?_, ?_⟩
    · simp [AccountId.from_xml, pyOr, pyTruthy, hv, hid, hne]
    · simp [AccountId.str, pyOrStr, pyOr, pyTruthy, hne]
  · intro root hiban hid
    simp [AccountId.from_xml, pyOr, pyTruthy, hiban, hid]

/-- Witness for C7 at concrete subtrees. -/
theorem C7_identifier_round_trip_witness :
    (∃ b, BankId.from_xml (some rootBicC7) = some b ∧ b.str = "COBADEFF") ∧
    BankId.from_xml (some rootEmptyBankC7) = none ∧
    (∃ a, AccountId.from_xml (some rootIbanC7) = some a ∧
      a.str = "DE1234567890") ∧
    AccountId.from_xml (some rootEmptyAcctC7) = none :=
  ⟨C7_identifier_round_trip.1 rootBicC7 "COBADEFF" rfl (by decide) rfl rfl,
   C7_identifier_round_trip.2.1 rootEmptyBankC7 rfl rfl rfl,
   C7_identifier_round_trip.2.2.1 rootIbanC7 "DE1234567890" rfl (by decide) rfl,
   C7_identifier_round_trip.2.2.2 rootEmptyAcctC7 rfl rfl⟩

/-! ### Claim C8 -/

/-- C8: TransactionRef.from_xml always returns a reference object, never
absence: an absent subtree yields the all-absent reference, and a present
subtree has each of the eight fields extracted independently as optional
text. -/
theorem C8_transaction_ref_always_constructed :
    TransactionRef.from_xml none =
      { message_id := none, end_to_end_id := none,
        account_servicer_ref := none, payment_invocation_id := none,
        instruction_id := none, mandate_id := none, cheque_number := none,
        clearing_system_ref := none } ∧
    ∀ root, TransactionRef.from_xml (some root) =
      { message_id := get_text_or_none (some root) (some ["MsgId"]) true
        end_to_end_id := get_text_or_none (some root) (some ["EndToEndId"]) true
        account_servicer_ref := get_text_or_none (some root) (some ["AcctSvcrRef"]) true
        payment_invocation_id := get_text_or_none (some root) (some ["PmtInfId"]) true
        instruction_id := get_text_or_none (some root) (some ["InstrId"]) true
        mandate_id := get_text_or_none (some root) (some ["MndtId"]) true
        cheque_number := get_text_or_none (some root) (some ["ChqNb"]) true
        clearing_system_ref := get_text_or_none (some root) (some ["ClrSysRef"]) true } :=
  ⟨rfl, fun _ => rfl⟩

/-! ### Claim C10 -/

/-- C10: when exactly one of related_account_id and related_account_bank_id
is present, the related_account property is present and its string embeds
the literal text None in place of the missing side. -/
theorem C10_related_account_embeds_none {t : Transaction} :
    (∀ a, t.related_account_id = some a → t.related_account_bank_id = none →
       t.related_account = some (a.str ++ "/" ++ "None")) ∧
    (∀ b, t.related_account_id = none → t.related_account_bank_id = some b →
       t.related_account = some ("None" ++ "/" ++ b.str)) := by
  constructor
  · intro a ha hb
    unfold Transaction.related_account
    rw [ha, hb]
    simp [fmtOptAccountId, fmtOptBankId]
  · intro b ha hb
    unfold Transaction.related_account
    rw [ha, hb]
    simp [fmtOptAccountId, fmtOptBankId]

/-- Witness for C10 at concrete transactions with exactly one side. -/
theorem C10_related_account_embeds_none_witness :
    txC10.related_account = some "IBAN123/None" ∧
    txC10b.related_account = some "None/BIC9" := by
  constructor
  · have h := (@C10_related_account_embeds_none txC10).1
      ⟨some "IBAN123", none⟩ rfl rfl
    exact h.trans (by decide)
  · have h := (@C10_related_account_embeds_none txC10b).2
      ⟨some "BIC9", none⟩ rfl rfl
    exact h.trans (by decide)

/-! ### Claim C2 -/

/-- C2: for every entry, the parsed operation is debit iff the indicator
is DBIT and credit iff it is CRDT, and the stored Transaction.amount is
the XML amount unchanged regardless of the indicator (no negation for
transactions, unlike balances). -/
theorem C2_operation_iff_indicator {ntry : Xml} {t : Transaction}
    {indStr : String} {amtEl : Xml} {amountStr : String} {amount : PyDec}
    (h : parse_transaction ntry = .ok t)
    (hind : get_text (some ntry) (some ["CdtDbtInd"]) true = .ok indStr)
    (hamt : get_element ntry ["Amt"] = .ok amtEl)
    (hstr : get_text (some amtEl) none true = .ok amountStr)
    (hdec : pyDecimalE amountStr = .ok amount) :
    (t.operation = "debit" ↔ indStr = "DBIT") ∧
    (t.operation = "credit" ↔ indStr = "CRDT") ∧
    t.amount = amount := by
  rcases parse_transaction_ok_inv h with
    ⟨er, amtEl2, cur, amountStr2, amount2, indStr2, tmp, vs, vd, rem, bd,
     h1, h2, h3, h4, h5, h6, h7, h8, h9, h10, h11, ht⟩
  rw [hamt] at h2; injection h2 with h2; subst h2
  rw [hstr] at h4; injection h4 with h4; subst h4
  rw [hdec] at h5; injection h5 with h5; subst h5
  rw [hind] at h6; injection h6 with h6; subst h6
  subst ht
  rcases ofString_ok_cases h7 with ⟨hc, hs⟩ | ⟨hc, hs⟩ <;> subst hc <;> subst hs
  · exact ⟨by simp, by simp, rfl⟩
  · exact ⟨by simp, by simp, rfl⟩

/-- Witness for C2 at a concrete credit entry. -/
theorem C2_operation_iff_indicator_witness :
    (txC2.operation = "debit" ↔ "CRDT" = "DBIT") ∧
    (txC2.operation = "credit" ↔ "CRDT" = "CRDT") ∧
    txC2.amount = ⟨15000, 2⟩ :=
  @C2_operation_iff_indicator ntryC2 txC2 "CRDT"
    (Xml.mk "Amt" [("Ccy", "EUR")] (some "150.00") []) "150.00" ⟨15000, 2⟩
    (by decide) rfl rfl rfl rfl

/-! ### Claim C3 -/

/-- C3: ordered related-party fallback.  The related account id comes from
the debtor account id subtree when structurally present (no further
fallback), else from the creditor account id subtree, else it is absent;
the related bank id likewise from the debtor agent then the creditor
agent financial-institution subtree via BankId.from_xml. -/
theorem C3_related_party_ordered_fallback {ntry : Xml} {t : Transaction}
    (h : parse_transaction ntry = .ok t) :
    (∀ d, find ntry ["NtryDtls", "TxDtls", "RltdPties", "DbtrAcct", "Id"] = some d →
       t.related_account_id = AccountId.from_xml (some d)) ∧
    (find ntry ["NtryDtls", "TxDtls", "RltdPties", "DbtrAcct", "Id"] = none →
     ∀ c, find ntry ["NtryDtls", "TxDtls", "RltdPties", "CdtrAcct", "Id"] = some c →
       t.related_account_id = AccountId.from_xml (some c)) ∧
    (find ntry ["NtryDtls", "TxDtls", "RltdPties", "DbtrAcct", "Id"] = none →
     find ntry ["NtryDtls", "TxDtls", "RltdPties", "CdtrAcct", "Id"] = none →
       t.related_account_id = none) ∧
    (∀ d, find ntry ["NtryDtls", "TxDtls", "RltdAgts", "DbtrAgt", "FinInstnId"] = some d →
       t.related_account_bank_id = BankId.from_xml (some d)) ∧
    (find ntry ["NtryDtls", "TxDtls", "RltdAgts", "DbtrAgt", "FinInstnId"] = none →
     ∀ c, find ntry ["NtryDtls", "TxDtls", "RltdAgts", "CdtrAgt", "FinInstnId"] = some c →
       t.related_account_bank_id = BankId.from_xml (some c)) ∧
    (find ntry ["NtryDtls", "TxDtls", "RltdAgts", "DbtrAgt", "FinInstnId"] = none →
     find ntry ["NtryDtls", "TxDtls", "RltdAgts", "CdtrAgt", "FinInstnId"] = none →
       t.related_account_bank_id = none) := by
  rcases parse_transaction_ok_inv h with
    ⟨er, amtEl2, cur, amountStr2, amount2, indStr2, tmp, vs, vd, rem, bd,
     h1, h2, h3, h4, h5, h6, h7, h8, h9, h10, h11, ht⟩
  subst ht
  refine ⟨?_, ?_, ?_, ?_, ?_, ?_⟩
  · intro d hd; rw [hd]
  · intro hn c hc; rw [hn, hc]
  · intro hn hc; rw [hn, hc]
  · intro d hd; rw [hd]
  · intro hn c hc; rw [hn, hc]
  · intro hn hc; rw [hn, hc]

/-- Witness for C3: the debtor account takes precedence, the creditor
agent is used when the debtor agent is absent, and both account sides
absent give an absent related account id (at ntryC2). -/
theorem C3_related_party_ordered_fallback_witness :
    txC3.related_account_id =
      AccountId.from_xml (some (el "Id" [txt "IBAN" "DE11"])) ∧
    txC3.related_account_bank_id =
      BankId.from_xml (some (el "FinInstnId" [txt "BIC" "COBADEFF"])) ∧
    txC2.related_account_id = none := by
  refine ⟨?_, ?_, ?_⟩
  · exact (@C3_related_party_ordered_fallback ntryC3 txC3 (by decide)).1
      (el "Id" [txt "IBAN" "DE11"]) rfl
  · exact (@C3_related_party_ordered_fallback ntryC3 txC3 (by decide)).2.2.2.2.1
      rfl (el "FinInstnId" [txt "BIC" "COBADEFF"]) rfl
  · exact (@C3_related_party_ordered_fallback ntryC2 txC2 (by decide)).2.2.1
      rfl rfl

/-! ### Claim C1 -/

/-- C1: for every balance block, a DBIT indicator stores the negation of
the XML decimal amount and a CRDT indicator stores it unchanged; any other
indicator literal fails the enum conversion with an invalid-enum error and
makes the statement parse fail. -/
theorem C1_balance_sign_and_invalid_enum :
    (∀ bal b code amtEl amountStr amount,
       processBal bal = .ok (b, code) →
       get_element bal ["Amt"] = .ok amtEl →
       get_text (some amtEl) none true = .ok amountStr →
       pyDecimalE amountStr = .ok amount →
       (get_text (some bal) (some ["CdtDbtInd"]) true = .ok "DBIT" →
          b.amount = amount.neg) ∧
       (get_text (some bal) (some ["CdtDbtInd"]) true = .ok "CRDT" →
          b.amount = amount)) ∧
    (∀ bal s dateStr d amtEl cur amountStr amount,
       get_text (some bal) (some ["Dt", "Dt"]) true = .ok dateStr →
       parse_date_isoformat dateStr = .ok d →
       get_element bal ["Amt"] = .ok amtEl →
       get_attribute amtEl "Ccy" = .ok cur →
       get_text (some amtEl) none true = .ok amountStr →
       pyDecimalE amountStr = .ok amount →
       get_text (some bal) (some ["CdtDbtInd"]) true = .ok s →
       s ≠ "CRDT" → s ≠ "DBIT" →
       processBal bal = .error (.invalidEnum s)) ∧
    (∀ stmt bal s st,
       bal ∈ findAll stmt ["Bal"] →
       get_text (some bal) (some ["CdtDbtInd"]) true = .ok s →
       s ≠ "CRDT" → s ≠ "DBIT" →
       parse_statement stmt ≠ .ok st) := by
  refine ⟨?_, ?_, ?_⟩
  · intro bal b code amtEl amountStr amount h hamt hstr hdec
    rcases processBal_ok_inv h with
      ⟨ds, d, amtEl2, cur2, as2, am0, indS, tmp,
       p1, p2, p3, p4, p5, p6, p7, p8, p9, hb⟩
    rw [hamt] at p3; injection p3 with p3; subst p3
    rw [hstr] at p5; injection p5 with p5; subst p5
    rw [hdec] at p6; injection p6 with p6; subst p6
    constructor
    · intro hdbit
      rw [p7] at hdbit; injection hdbit with hdbit
      subst hdbit
      rcases ofString_ok_cases p8 with ⟨hc, hs⟩ | ⟨hc, hs⟩
      · exact absurd hs (by decide)
      · subst hc; subst hb; simp
    · intro hcrdt
      rw [p7] at hcrdt; injection hcrdt with hcrdt
      subst hcrdt
      rcases ofString_ok_cases p8 with ⟨hc, hs⟩ | ⟨hc, hs⟩
      · subst hc; subst hb; simp
      · exact absurd hs (by decide)
  · intro bal s dateStr d amtEl cur amountStr amount h1 h2 h3 h4 h5 h6 h7
      hne1 hne2
    rw [processBal, h1, bind_ok, h2, bind_ok, h3, bind_ok, h4, bind_ok,
      h5, bind_ok, h6, bind_ok, h7, bind_ok, ofString_invalid hne1 hne2,
      bind_error]
  · intro stmt bal s st hmem hs hne1 hne2 hok
    rcases parse_statement_ok_inv hok with
      ⟨sid, cs, ct, fs, ft, ts2, tt, acctEl, acct, ob, cb, txs,
       q1, q2, q3, q4, q5, q6, q7, q8, q9, q10, q11, _⟩
    rcases foldBals_ok_mem q10 hmem with ⟨⟨b2, code2⟩, hp⟩
    rcases processBal_ok_inv hp with
      ⟨ds, d, amtEl2, cur2, as2, am0, indS, tmp,
       p1, p2, p3, p4, p5, p6, p7, p8, p9, hb⟩
    rw [hs] at p7; injection p7 with p7
    rcases ofString_ok_cases p8 with ⟨_, hs2⟩ | ⟨_, hs2⟩
    · exact hne1 (p7.trans hs2)
    · exact hne2 (p7.trans hs2)

/-- Witness for C1 at concrete balance blocks and a concrete statement. -/
theorem C1_balance_sign_and_invalid_enum_witness :
    ((⟨⟨-5000, 2⟩, "EUR", ⟨2024, 1, 31⟩⟩ : Balance).amount =
        PyDec.neg ⟨5000, 2⟩ ∧
     (⟨⟨10000, 2⟩, "EUR", ⟨2024, 1, 1⟩⟩ : Balance).amount =
        (⟨10000, 2⟩ : PyDec)) ∧
    processBal balBadC1 = .error (.invalidEnum "XXXX") ∧
    parse_statement stmtBadC1 ≠ .ok stDummyC1 := by
  refine ⟨⟨?_, ?_⟩, ?_, ?_⟩
  · exact (C1_balance_sign_and_invalid_enum.1 balDbitC1
      ⟨⟨-5000, 2⟩, "EUR", ⟨2024, 1, 31⟩⟩ "CLBD"
      (Xml.mk "Amt" [("Ccy", "EUR")] (some "50.00") []) "50.00" ⟨5000, 2⟩
      rfl rfl rfl rfl).1 rfl
  · exact (C1_balance_sign_and_invalid_enum.1 balCrdtC1
      ⟨⟨10000, 2⟩, "EUR", ⟨2024, 1, 1⟩⟩ "OPBD"
      (Xml.mk "Amt" [("Ccy", "EUR")] (some "100.00") []) "100.00" ⟨10000, 2⟩
      rfl rfl rfl rfl).2 rfl
  · exact C1_balance_sign_and_invalid_enum.2.1 balBadC1 "XXXX" "2024-01-01"
      ⟨2024, 1, 1⟩ (Xml.mk "Amt" [("Ccy", "EUR")] (some "100.00") []) "EUR"
      "100.00" ⟨10000, 2⟩ rfl rfl rfl rfl rfl rfl rfl (by decide) (by decide)
  · exact C1_balance_sign_and_invalid_enum.2.2 stmtBadC1 balBadC1 "XXXX"
      stDummyC1 (List.mem_singleton.mpr rfl) rfl (by decide) (by decide)

/-! ### Claim C4 -/

/-- C4 counterexample: at a concrete entry whose value-date element is
absent, parsing fails, but with the path-less missing-mandatory-element
error of get_text, not with an error identifying the path of the missing
field. -/
theorem C4_missing_field_counterexample :
    parse_transaction ntryC4 = .error .missingMandatoryElement ∧
    Err.missingMandatoryElement ≠ .missingMandatoryElementAt ["ValDt", "Dt"] :=
  ⟨by decide, by decide⟩

/-- C4 (amended): for every entry whose mandatory value-date text is
absent (earlier extractions succeeding), parsing the entry fails with the
missing-mandatory-element error, which does not carry the path, and no
partial statement is returned for any document containing the entry. -/
theorem C4_missing_field_aborts {ntry : Xml} {r : String} {amtEl : Xml}
    {cur amountStr : String} {amount : PyDec} {indStr : String}
    {ind : CreditOrDebit}
    (h1 : get_text (some ntry) (some ["NtryRef"]) true = .ok r)
    (h2 : get_element ntry ["Amt"] = .ok amtEl)
    (h3 : get_attribute amtEl "Ccy" = .ok cur)
    (h4 : get_text (some amtEl) none true = .ok amountStr)
    (h5 : pyDecimalE amountStr = .ok amount)
    (h6 : get_text (some ntry) (some ["CdtDbtInd"]) true = .ok indStr)
    (h7 : CreditOrDebit.ofString indStr = .ok ind)
    (hval : get_text_or_none (some ntry) (some ["ValDt", "Dt"]) true = none) :
    parse_transaction ntry = .error .missingMandatoryElement ∧
    ∀ stmt st, ntry ∈ findAll stmt ["Ntry"] →
      parse_statement stmt ≠ .ok st := by
  have hval2 : get_text (some ntry) (some ["ValDt", "Dt"]) true =
      .error .missingMandatoryElement := by
    unfold get_text
    rw [hval]
  have herr : parse_transaction ntry = .error .missingMandatoryElement := by
    rw [parse_transaction, h1, bind_ok, h2, bind_ok, h3, bind_ok, h4,
      bind_ok, h5, bind_ok, h6, bind_ok, h7, bind_ok, hval2, bind_error]
  refine ⟨herr, ?_⟩
  intro stmt st hmem hok
  rcases parse_statement_ok_inv hok with
    ⟨sid, cs, ct, fs, ft, ts2, tt, acctEl, acct, ob, cb, txs,
     q1, q2, q3, q4, q5, q6, q7, q8, q9, q10, q11, _⟩
  rw [parse_transactions] at q11
  rcases mapExcept_ok_mem q11 hmem with ⟨y, hy⟩
  rw [herr] at hy
  cases hy

/-- Witness for C4 at the concrete entry and statement fixtures. -/
theorem C4_missing_field_aborts_witness :
    parse_transaction ntryC4 = .error .missingMandatoryElement ∧
    parse_statement stmtC4 ≠ .ok stDummyC4 := by
  have h := @C4_missing_field_aborts ntryC4 "R4"
    (Xml.mk "Amt" [("Ccy", "EUR")] (some "10.00") []) "EUR" "10.00"
    ⟨1000, 2⟩ "CRDT" CreditOrDebit.CRDT rfl rfl rfl rfl rfl rfl rfl rfl
  exact ⟨h.1, h.2 stmtC4 stDummyC4 (List.mem_singleton.mpr rfl)⟩

/-! ### Claim C5 -/

/-- C5 counterexample: at a concrete entry with a remittance-info node
whose text is absent, the join does crash: parsing fails with the
TypeError of str.join over None, instead of treating absent text as the
empty string. -/
theorem C5_remote_info_counterexample :
    parse_transaction ntryC5bad = .error .typeErrNoneInJoin := by decide

/-- C5 (amended): the remote info is the comma-join of the texts of the
matching remittance-info nodes when all of them are present; if any
matching node's text is absent (earlier extractions succeeding), the join
raises a TypeError and parsing the entry fails. -/
theorem C5_remote_info_join :
    (∀ ntry t ts, parse_transaction ntry = .ok t →
       ((findAll ntry ["NtryDtls", "TxDtls", "RmtInf", "Ustrd"]).map
          (fun e => get_text_or_none (some e) none true)) = ts.map some →
       t.remote_info = some (String.intercalate ", " ts)) ∧
    (∀ ntry r amtEl cur amountStr amount indStr ind valStr vd e,
       get_text (some ntry) (some ["NtryRef"]) true = .ok r →
       get_element ntry ["Amt"] = .ok amtEl →
       get_attribute amtEl "Ccy" = .ok cur →
       get_text (some amtEl) none true = .ok amountStr →
       pyDecimalE amountStr = .ok amount →
       get_text (some ntry) (some ["CdtDbtInd"]) true = .ok indStr →
       CreditOrDebit.ofString indStr = .ok ind →
       get_text (some ntry) (some ["ValDt", "Dt"]) true = .ok valStr →
       parse_date_isoformat valStr = .ok vd →
       e ∈ findAll ntry ["NtryDtls", "TxDtls", "RmtInf", "Ustrd"] →
       get_text_or_none (some e) none true = none →
       parse_transaction ntry = .error .typeErrNoneInJoin) := by
  constructor
  · intro ntry t ts h hts
    rcases parse_transaction_ok_inv h with
      ⟨er, amtEl2, cur, amountStr2, amount2, indStr2, tmp, vs, vd, rem, bd,
       h1, h2, h3, h4, h5, h6, h7, h8, h9, h10, h11, ht⟩
    rw [hts] at h10
    unfold joinOptTexts at h10
    rw [seqOpt_map_some] at h10
    injection h10 with h10
    subst ht
    simp [h10]
  · intro ntry r amtEl cur amountStr amount indStr ind valStr vd e
      h1 h2 h3 h4 h5 h6 h7 h8 h9 hmem he
    have hnone : (none : Option String) ∈
        (findAll ntry ["NtryDtls", "TxDtls", "RmtInf", "Ustrd"]).map
          (fun e => get_text_or_none (some e) none true) := by
      rw [← he]
      exact List.mem_map_of_mem _ hmem
    have hjoin : joinOptTexts
        ((findAll ntry ["NtryDtls", "TxDtls", "RmtInf", "Ustrd"]).map
          (fun e => get_text_or_none (some e) none true)) =
        .error .typeErrNoneInJoin := by
      unfold joinOptTexts
      rw [seqOpt_of_mem_none hnone]
    rw [parse_transaction, h1, bind_ok, h2, bind_ok, h3, bind_ok, h4,
      bind_ok, h5, bind_ok, h6, bind_ok, h7, bind_ok, h8, bind_ok, h9,
      bind_ok]
    simp only [hjoin, bind_error]

/-- Witness for C5: the joined remote info of a concrete entry with two
remittance texts, and the TypeError failure of a concrete entry with an
absent remittance text. -/
theorem C5_remote_info_join_witness :
    txC5.remote_info = some (String.intercalate ", " ["Invoice 1", "Invoice 2"]) ∧
    parse_transaction ntryC5bad = .error .typeErrNoneInJoin := by
  constructor
  · exact C5_remote_info_join.1 ntryC5ok txC5 ["Invoice 1", "Invoice 2"]
      (by decide) rfl
  · exact C5_remote_info_join.2 ntryC5bad "R5b"
      (Xml.mk "Amt" [("Ccy", "EUR")] (some "10.00") []) "EUR" "10.00"
      ⟨1000, 2⟩ "CRDT" .CRDT "2024-01-17" ⟨2024, 1, 17⟩
      (Xml.mk "Ustrd" [] none []) rfl rfl rfl rfl rfl rfl rfl rfl rfl
      (List.mem_singleton.mpr rfl) rfl

/-! ### Claim C6 -/

/-- C6: at a concrete entry with every mandatory element present but the
booking-timestamp element absent, parse_transaction does not succeed with
an absent booking timestamp: the non-optional book_datetime field of the
Transaction model rejects the absent value (pydantic validation error). -/
theorem C6_booking_timestamp_failure :
    parse_transaction ntryC6 = .error (.validationErr "book_datetime") := by
  decide

/-! ### Claim C9 -/

/-- C9 counterexample: a statement with its opening balance present and
its closing balance absent still fails the tabular export, refuting that
one of the two balances suffices. -/
theorem C9_export_counterexample :
    stOnlyOpeningC9.opening_balance = some balC9 ∧
    as_dataframe stOnlyOpeningC9 = .error (.attributeNone "amount") :=
  ⟨rfl, rfl⟩

/-- C9 (amended): the tabular export fails whenever the opening or the
closing balance is absent (AttributeError on None), and succeeds exactly
when both are present. -/
theorem C9_export_requires_both_balances {s : BankToCustomerStatement} :
    ((s.opening_balance = none ∨ s.closing_balance = none) →
       as_dataframe s = .error (.attributeNone "amount")) ∧
    (∀ ob cb, s.opening_balance = some ob → s.closing_balance = some cb →
       ∃ df, as_dataframe s = .ok df) := by
  constructor
  · intro h
    unfold as_dataframe
    rcases h with h | h
    · rw [h]
    · cases ho : s.opening_balance with
      | none => rfl
      | some ob => rw [h]
  · intro ob cb ho hc
    unfold as_dataframe
    rw [ho, hc]
    exact ⟨_, rfl⟩

/-- Witness for C9: the concrete one-balance statement fails the export,
the concrete two-balance statement passes it. -/
theorem C9_export_requires_both_balances_witness :
    as_dataframe stOnlyOpeningC9 = .error (.attributeNone "amount") ∧
    ∃ df, as_dataframe stBothC9 = .ok df :=
  ⟨(@C9_export_requires_both_balances stOnlyOpeningC9).1 (Or.inr rfl),
   (@C9_export_requires_both_balances stBothC9).2 balC9 balC9 rfl rfl⟩

end Camt53
